import Mathlib

/-!
Verification development for `SiEPIC/core.py` (SiEPIC-Tools): shallow embedding of
the Net / Pin / Component data model and of the operations `Pin.__init__`,
`Pin.transform`, `Component.__init__`, `Component.display`, `Component.params_dict`
and `Component.has_model`.

Modelling conventions:
- Host geometry (KLayout `pya`) point/box/polygon/path primitives are embedded with
  exact rational coordinates; the host's integer rounding and floating arithmetic
  are external-library details, and all spec properties are stated "within floating
  tolerance", which the exact model realises.
- Python `None`-able attributes are `Option`s; Python exceptions are `Except.error`
  with a message echoing the Python exception.
- `angle_vector` lives in `SiEPIC/utils` which is not part of the sources under
  `src/`; it is modelled from the spec (atan2-style vector angle in degrees).
- Non-owning back-references (Pin -> Component, Pin -> Net) are modelled as plain
  data (an index, a record) per the spec's design notes.
-/

namespace SiEPIC

/-- A `pya.Point` with exact rational coordinates. -/
structure Point where
  x : ℚ
  y : ℚ
deriving DecidableEq, Repr

instance : Add Point := ⟨fun u v => ⟨u.x + v.x, u.y + v.y⟩⟩

instance : Sub Point := ⟨fun u v => ⟨u.x - v.x, u.y - v.y⟩⟩

/-- Scalar multiplication `point * factor` (the source writes `(pts[0] + pts[1]) * 0.5`). -/
def Point.scale (p : Point) (s : ℚ) : Point := ⟨p.x * s, p.y * s⟩

/-- The point list of a `pya.Path`, as returned by `path.get_points()`. -/
abbrev Path := List Point

/-- A `pya.Box` given by its two corners (left, bottom, right, top). -/
structure Box where
  x1 : ℚ
  y1 : ℚ
  x2 : ℚ
  y2 : ℚ
deriving DecidableEq, Repr

/-- `pya.Box.center()`. -/
def Box.center (b : Box) : Point := ⟨(b.x1 + b.x2) / 2, (b.y1 + b.y2) / 2⟩

/-- A `pya.Polygon`, kept as its (nonempty) hull point list. -/
structure Polygon where
  p0 : Point
  rest : List Point
deriving DecidableEq, Repr

def Polygon.points (pg : Polygon) : List Point := pg.p0 :: pg.rest

/-- `pya.Polygon.bbox()`: the smallest box containing every hull point. -/
def Polygon.bbox (pg : Polygon) : Box :=
  pg.rest.foldl (fun b p => ⟨min b.x1 p.x, min b.y1 p.y, max b.x2 p.x, max b.y2 p.y⟩)
    ⟨pg.p0.x, pg.p0.y, pg.p0.x, pg.p0.y⟩

/-- An affine coordinate transform (linear part `a b c d`, displacement `dx dy`),
covering the host's `Trans`/`DTrans`/`ICplxTrans` transforms used with
`Pin.transform`. -/
structure Trans where
  a : ℚ
  b : ℚ
  c : ℚ
  d : ℚ
  dx : ℚ
  dy : ℚ
deriving DecidableEq, Repr

/-- Apply a transform to a point. -/
def Trans.apply (t : Trans) (p : Point) : Point :=
  ⟨t.a * p.x + t.b * p.y + t.dx, t.c * p.x + t.d * p.y + t.dy⟩

/-- Composition of transforms: `Trans.comp t2 t1` acts as `t2` after `t1`
(the host's `t2 * t1`). -/
def Trans.comp (t2 t1 : Trans) : Trans :=
  ⟨t2.a * t1.a + t2.b * t1.c, t2.a * t1.b + t2.b * t1.d,
   t2.c * t1.a + t2.d * t1.c, t2.c * t1.b + t2.d * t1.d,
   t2.a * t1.dx + t2.b * t1.dy + t2.dx, t2.c * t1.dx + t2.d * t1.dy + t2.dy⟩

/-- `path.transformed(trans)`: pointwise application. -/
def Path.transformed (pth : Path) (t : Trans) : Path := pth.map (Trans.apply t)

/-- `polygon.transformed(trans)`: pointwise application to the hull. -/
def Polygon.transformed (pg : Polygon) (t : Trans) : Polygon :=
  ⟨Trans.apply t pg.p0, pg.rest.map (Trans.apply t)⟩

/-- Modelled from the spec: `angle_vector` from `SiEPIC.utils` (that module is not
under `src/`); the atan2-style angle of a vector, in degrees:
`atan2(u.y, u.x) / pi * 180`. -/
noncomputable def angle_vector (u : Point) : ℝ :=
  Complex.arg ⟨(u.x : ℝ), (u.y : ℝ)⟩ / Real.pi * 180

/-- `SiEPIC._globals.PIN_TYPES`. -/
inductive PinType where
  | OPTICAL
  | ELECTRICAL
  | OPTICALIO
deriving DecidableEq, Repr

/-- The `Net` record (`core.py` lines 46-52).  The `pins` back-reference array is a
non-owning link that would be mutually recursive with `Pin`; none of the verified
claims touch it, so it is omitted from the record. -/
structure Net where
  idx : Option Int := none
  type : Option PinType := none
deriving DecidableEq, Repr

/-- Modelled from the spec: the process-wide disconnected-sentinel net
`SiEPIC._globals.NET_DISCONNECTED` (`_globals` is not under `src/`). -/
def NET_DISCONNECTED : Net := {}

/-- The `Pin` record (`core.py` lines 86-116).  `component` is the non-owning
back-reference to the owning component, modelled as its `idx`.  `center` and `box`
are `Option`s because `__init__`'s invalid-path early return leaves those
attributes unset. -/
structure Pin where
  type : Option PinType
  net : Net
  pin_name : Option String
  component : Option Int
  path : Option Path
  polygon : Option Polygon
  box : Option Box
  center : Option Point
  rotation : ℝ

/-- The tail of `Pin.__init__` after the path branch (`core.py` lines 111-116):
`self.box = box; if box: center = box.center(); if polygon: rotation = 0;
center = polygon.bbox().center()`. -/
noncomputable def pinFinish (ptype : Option PinType) (netF : Net) (name : Option String)
    (comp : Option Int) (path : Option Path) (polygonArg : Option Polygon)
    (boxArg : Option Box) (center0 : Option Point) (rot0 : ℝ) : Pin :=
  let center1 : Option Point :=
    match boxArg with
    | some b => some b.center
    | none => center0
  match polygonArg with
  | some pg =>
      { type := ptype, net := netF, pin_name := name, component := comp, path := path,
        polygon := polygonArg, box := boxArg, center := some pg.bbox.center, rotation := 0 }
  | none =>
      { type := ptype, net := netF, pin_name := name, component := comp, path := path,
        polygon := polygonArg, box := boxArg, center := center1, rotation := rot0 }

/-- `Pin.__init__` (`core.py` lines 88-116), with the source's Python argument
order `(path, _type, box, polygon, component, net, pin_name)`.
- `if net: ... else: NET_DISCONNECTED` (lines 92-95);
- path with exactly 2 points: `center = (pts[0] + pts[1]) * 0.5`,
  `rotation = angle_vector(pts[1] - pts[0])` (lines 103, 108);
- path with any other point count: the source prints a console message, sets
  `rotation = 0` and returns early, leaving the `box` and `center` attributes
  unset (lines 105-107);
- no path: `rotation = 0` (line 110), then the box/polygon tail. -/
noncomputable def Pin.init (path : Option Path) (ptype : Option PinType)
    (boxArg : Option Box) (polygonArg : Option Polygon) (comp : Option Int)
    (netArg : Option Net) (name : Option String) : Pin :=
  let netF := netArg.getD NET_DISCONNECTED
  match path with
  | some [p0, p1] =>
      pinFinish ptype netF name comp path polygonArg boxArg
        (some ((p0 + p1).scale (1 / 2))) (angle_vector (p1 - p0))
  | some _ =>
      { type := ptype, net := netF, pin_name := name, component := comp, path := path,
        polygon := polygonArg, box := none, center := none, rotation := 0 }
  | none =>
      pinFinish ptype netF name comp path polygonArg boxArg none 0

/-- `Pin.transform` (`core.py` lines 118-130).  The path branch indexes
`pts[0]`/`pts[1]` of the transformed path (an `IndexError` when the path has
fewer than 2 points); the polygon branch recomputes the bounding-box center and
resets the rotation; a pin with neither path nor polygon (an ELECTRICAL box pin)
is returned unchanged — the `box` attribute is never transformed.  The source
mutates `self` and returns it; the embedding returns the updated record. -/
noncomputable def Pin.transform (p : Pin) (t : Trans) : Except String Pin := do
  let p1 : Pin ←
    match p.path with
    | none => Except.ok p
    | some pth =>
        match Path.transformed pth t with
        | q0 :: q1 :: qs =>
            Except.ok { p with path := some (q0 :: q1 :: qs),
                               center := some ((q0 + q1).scale (1 / 2)),
                               rotation := angle_vector (q1 - q0) }
        | _ => Except.error "IndexError: list index out of range"
  match p1.polygon with
  | none => return p1
  | some pg =>
      let pg2 := Polygon.transformed pg t
      return { p1 with polygon := some pg2, center := some pg2.bbox.center, rotation := 0 }

/-- The values `Component.params_dict` can store: a Python `int`, the `float` of a
`Decimal` product (kept exact as a rational), or a pass-through string. -/
inductive PValue where
  | intV : Int → PValue
  | floatV : ℚ → PValue
  | strV : String → PValue
deriving DecidableEq, Repr

/-- Split a character list at every occurrence of the separator (Python
`s.split(sep)` for a single-character separator: adjacent separators yield empty
fields). -/
def splitChar (sep : Char) : List Char → List (List Char)
  | [] => [[]]
  | c :: rest =>
      let r := splitChar sep rest
      if c = sep then [] :: r
      else (c :: r.headD []) :: r.tail

/-- Replace every occurrence of a character by a replacement string (Python
`s.replace(old, new)` for a single-character pattern, the only form the source
uses). -/
def replaceChar (c : Char) (rep : List Char) : List Char → List Char
  | [] => []
  | d :: rest => if d = c then rep ++ replaceChar c rep rest else d :: replaceChar c rep rest

/-- Python `s.split(sep)` for a one-character separator. -/
def pySplit (s : String) (sep : Char) : List String := (splitChar sep s.data).map String.mk

/-- Python `s.lower()` (ASCII case folding, which is all the source's inputs
use). -/
def pyToLower (s : String) : String := String.mk (s.data.map Char.toLower)

/-- Python `s.replace(old, new)` for a one-character pattern. -/
def pyReplaceChar (s : String) (c : Char) (rep : String) : String :=
  String.mk (replaceChar c rep.data s.data)

/-- Python `c in s` for a single character. -/
def pyContains (s : String) (c : Char) : Bool := s.data.contains c

/-- Python `dict` assignment `d[k] = v` on an insertion-ordered association list:
replace in place when the key exists, append otherwise. -/
def dictInsert (d : List (String × PValue)) (k : String) (v : PValue) :
    List (String × PValue) :=
  if d.any (fun kv => kv.1 == k) then d.map (fun kv => if kv.1 == k then (k, v) else kv)
  else d ++ [(k, v)]

/-- Digit characters to the natural number they denote (most significant first). -/
def digitsToNat (cs : List Char) : Nat :=
  cs.foldl (fun acc c => acc * 10 + (c.toNat - 48)) 0

/-- Python `int(s)`: an optional sign followed by at least one digit, else a
`ValueError`.  (Python additionally strips surrounding whitespace and allows
underscore group separators; neither can reach this parser through the
space-split `key=value` tokens of `params_dict`.) -/
def parsePyInt (s : String) : Option Int :=
  let cs := s.data
  let signed : Int × List Char :=
    match cs with
    | '-' :: rest => (-1, rest)
    | '+' :: rest => (1, rest)
    | _ => (1, cs)
  if signed.2 ≠ [] ∧ signed.2.all Char.isDigit then
    some (signed.1 * (digitsToNat signed.2 : Int))
  else none

/-- Split a character list at the first exponent marker `e`/`E`. -/
def splitAtExp : List Char → List Char × Option (List Char)
  | [] => ([], none)
  | c :: rest =>
      if c = 'e' ∨ c = 'E' then ([], some rest)
      else
        let r := splitAtExp rest
        (c :: r.1, r.2)

/-- Split a character list at the first decimal dot. -/
def splitAtDot : List Char → List Char × Option (List Char)
  | [] => ([], none)
  | c :: rest =>
      if c = '.' then ([], some rest)
      else
        let r := splitAtDot rest
        (c :: r.1, r.2)

/-- `decimal.Decimal(s)` for finite decimals, as an exact rational:
`[sign] digits [. digits] [e/E [sign] digits]` with at least one mantissa digit
(the special values NaN/Infinity are not modelled; no input of the verified
claims produces them). -/
def parseDecimal (s : String) : Option ℚ :=
  let cs := s.data
  let signed : ℚ × List Char :=
    match cs with
    | '-' :: rest => (-1, rest)
    | '+' :: rest => (1, rest)
    | _ => (1, cs)
  let mant := splitAtExp signed.2
  let ipfp := splitAtDot mant.1
  let fp := ipfp.2.getD []
  if ipfp.1.all Char.isDigit ∧ fp.all Char.isDigit ∧ (ipfp.1 ≠ [] ∨ fp ≠ []) then
    let mantVal : ℚ := (digitsToNat ipfp.1 : ℚ) + (digitsToNat fp : ℚ) / (10 : ℚ) ^ fp.length
    match mant.2 with
    | none => some (signed.1 * mantVal)
    | some ec =>
        match parsePyInt (String.mk ec) with
        | some n => some (signed.1 * mantVal * (10 : ℚ) ^ n)
        | none => none
  else none

/-- One iteration of the `params_dict` token loop (`core.py` lines 219-234):
skip empty tokens; take the substring between the first and second `=`
(an `IndexError` when there is no `=`); integer branch when the value has no `.`
and no `e`/`E` (case-insensitive); else pass bracketed values through literally;
else substitute `u` -> `e-6`, `n` -> `e-9`, read the result as a `Decimal` and
store `float(Decimal * Decimal(1e6))`. -/
def parseParamToken (d : List (String × PValue)) (s : String) :
    Except String (List (String × PValue)) :=
  if s = "" then Except.ok d
  else
    let parts := pySplit s '='
    match parts.get? 1 with
    | none => Except.error "IndexError: list index out of range"
    | some v =>
        let k := parts.headD ""
        if ¬ pyContains v '.' ∧ ¬ pyContains (pyToLower v) 'e' then
          match parsePyInt v with
          | some n => Except.ok (dictInsert d k (PValue.intV n))
          | none => Except.error ("ValueError: invalid literal for int with base 10: " ++ v)
        else if pyContains v '[' then
          Except.ok (dictInsert d k (PValue.strV v))
        else
          let str := pyReplaceChar (pyReplaceChar v 'u' "e-6") 'n' "e-9"
          match parseDecimal str with
          | some q => Except.ok (dictInsert d k (PValue.floatV (q * 1000000)))
          | none => Except.error ("decimal.InvalidOperation: " ++ str)

/-- The token loop of `params_dict` over `params.split(' ')`. -/
def paramsDictOfString (ps : String) : Except String (List (String × PValue)) :=
  (pySplit ps ' ').foldlM parseParamToken []

/-- The `Component` record (`core.py` lines 166-192).  `inst` stands for the
source field `instance` (a Lean keyword), an opaque non-owning reference to the
host `pya.Instance`.  The `epins`/`nets` constructor arguments are accepted and
dropped by the source (`__init__` never assigns `self.epins`/`self.nets`), so the
record has no such fields.  A constructed component always has a polygon
(`__init__` raises on `polygon=None`), hence `polygon : Polygon`. -/
structure Component where
  idx : Option Int
  component : Option String
  inst : Option String
  trans : Option Trans
  library : Option String
  pins : List Pin
  npins : Nat
  params : Option String
  polygon : Polygon
  DevRec_polygon : Option Polygon
  center : Point
  cell : Option String
  basic_name : Option String
  cellName : Option String
  Dcenter : Point

/-- `Component.__init__` (`core.py` lines 168-192) in the source's argument
order.  `self.center = polygon.bbox().center()` (line 186) raises an
`AttributeError` when `polygon` is `None`; `npins = len(pins)` (line 179);
`Dcenter = center.to_dtype(TECHNOLOGY[dbu])` scales by the database unit, which
the host technology registry supplies and the embedding takes as the `dbu`
parameter.  The `epins`/`nets` arguments are dropped, as in the source. -/
def Component.init (idx : Option Int) (component : Option String) (inst : Option String)
    (trans : Option Trans) (library : Option String) (params : Option String)
    (pins : List Pin) (epins : List Pin) (nets : List Net) (polygonArg : Option Polygon)
    (DevRec_polygon : Option Polygon) (cell : Option String) (basic_name : Option String)
    (cellName : Option String) (dbu : ℚ) : Except String Component :=
  match polygonArg with
  | none => Except.error "AttributeError: NoneType object has no attribute bbox"
  | some pg =>
      Except.ok
        { idx := idx, component := component, inst := inst, trans := trans,
          library := library, pins := pins, npins := pins.length, params := params,
          polygon := pg, DevRec_polygon := DevRec_polygon, center := pg.bbox.center,
          cell := cell, basic_name := basic_name, cellName := cellName,
          Dcenter := (pg.bbox.center).scale dbu }

/-- `Component.params_dict` (`core.py` lines 213-235): `if not(self.params):
return` the empty dict, else run the token loop. -/
def Component.params_dict (c : Component) : Except String (List (String × PValue)) :=
  match c.params with
  | none => Except.ok []
  | some ps => if ps = "" then Except.ok [] else paramsDictOfString ps

/-- Python string truthiness for an optional attribute: `None` and the empty
string are falsy. -/
def truthyStr : Option String → Bool
  | none => false
  | some s => s ≠ ""

/-- `Component.has_model` (`core.py` lines 240-249).  The external
`INTC_ELEMENTS` registry (from `SiEPIC._globals`, not under `src/`) and the
active technology name (from `get_layout_variables`, likewise external) are
parameters.  `if self.library and self.component:` requires both strings truthy;
the `else` branch reads `self.component.lower()`, an `AttributeError` when the
component name is `None`. -/
def Component.has_model (c : Component) (INTC_ELEMENTS : List String) (tech : String) :
    Except String Bool :=
  match c.library, c.component with
  | some lib, some comp =>
      if lib ≠ "" ∧ comp ≠ "" then
        Except.ok (INTC_ELEMENTS.contains
          ((pyReplaceChar (pyToLower lib) '/' "::") ++ "::" ++ pyToLower comp))
      else
        Except.ok (INTC_ELEMENTS.contains
          ("design kits::" ++ pyToLower tech ++ "::" ++ pyToLower comp))
  | none, some comp =>
      Except.ok (INTC_ELEMENTS.contains
        ("design kits::" ++ pyToLower tech ++ "::" ++ pyToLower comp))
  | _, none => Except.error "AttributeError: NoneType object has no attribute lower"

/-- Rendering of an optional string under Python `%s` formatting. -/
def pyStrOpt : Option String → String
  | none => "None"
  | some s => s

/-- Rendering of an optional integer under Python `%s` formatting. -/
def pyStrInt : Option Int → String
  | none => "None"
  | some n => toString n

/-- `point.to_s()` rendering (host formatting of the exact coordinates). -/
def pointStr (p : Point) : String := toString p.x ++ "," ++ toString p.y

/-- Rendering of an optional transform under `%s` (host formatting detail). -/
def transStr : Option Trans → String
  | none => "None"
  | some t =>
      toString t.a ++ " " ++ toString t.b ++ " " ++ toString t.c ++ " " ++ toString t.d
        ++ " " ++ toString t.dx ++ " " ++ toString t.dy

/-- One `[p.pin_name, p.center.to_s(), p.net.idx]` entry of the display listing.
On a pin whose `center` attribute was never set (the invalid-path early return
of `Pin.__init__`), reading `p.center` raises an `AttributeError`, which this
rendering propagates. -/
def pinBrief (p : Pin) : Except String String :=
  match p.center with
  | none => Except.error "AttributeError: Pin object has no attribute center"
  | some c0 =>
      Except.ok ("[" ++ pyStrOpt p.pin_name ++ ", " ++ pointStr c0 ++ ", "
        ++ pyStrInt p.net.idx ++ "]")

/-- A `[[...], [...]]` pin listing; the first center-less pin aborts it with the
`AttributeError` of `pinBrief`. -/
def pinsBrief (l : List Pin) : Except String String := do
  let entries ← l.mapM pinBrief
  return "[" ++ String.intercalate ", " entries ++ "]"

/-- The report text `Component.display` builds (`core.py` lines 201-209): the
source's `%`-template filled with the component fields, the three per-type pin
listings and the `has_model()` result.  Python evaluates the template arguments
left to right, so a failing pin rendering (a pin with no `center` attribute)
raises before `has_model()` runs, and a failing `has_model()` raises before the
text exists; both propagate out of `display`. -/
def Component.displayText (c : Component) (INTC_ELEMENTS : List String) (tech : String) :
    Except String String := do
  let optical ← pinsBrief (c.pins.filter (fun p => p.type == some PinType.OPTICAL))
  let electrical ← pinsBrief (c.pins.filter (fun p => p.type == some PinType.ELECTRICAL))
  let opticalio ← pinsBrief (c.pins.filter (fun p => p.type == some PinType.OPTICALIO))
  let hm ← Component.has_model c INTC_ELEMENTS tech
  return "- basic_name: " ++ pyStrOpt c.basic_name
    ++ ", component: " ++ pyStrOpt c.component ++ "-" ++ pyStrInt c.idx
    ++ " / " ++ pyStrOpt c.inst
    ++ "; transformation: " ++ transStr c.trans
    ++ "; center position: " ++ pointStr c.Dcenter
    ++ "; number of pins: " ++ toString c.npins
    ++ "; optical pins: " ++ optical
    ++ "; electrical pins: " ++ electrical
    ++ "; optical IO pins: " ++ opticalio
    ++ "; has compact model: " ++ (if hm then "True" else "False")
    ++ "; params: " ++ pyStrOpt c.params ++ "."

/-- `Component.display` (`core.py` lines 194-211).  For a single component the
`cc = [self]` loop body runs once: it first assigns `self.npins = len(self.pins)`
(line 200), then builds and prints the report text, and the method returns the
text.  The first pair component is the component's attribute state after the
call — the `npins` reassignment happens before the text is built, so it persists
even when the text construction raises; the second is the method's result, the
returned text or the propagated exception.  The `print` itself is console
output. -/
def Component.display (c : Component) (INTC_ELEMENTS : List String) (tech : String) :
    Component × Except String String :=
  let c2 : Component := { c with npins := c.pins.length }
  (c2, Component.displayText c2 INTC_ELEMENTS tech)

/-- Reference-level model of Python list objects for the default-argument
semantics of `Component.__init__`: a store of list objects addressed by
allocation index. -/
abbrev Heap := List (List Pin)

def Heap.read (h : Heap) (r : Nat) : List Pin := h.getD r []

def Heap.write (h : Heap) (r : Nat) (v : List Pin) : Heap := h.set r v

/-- Python evaluates the default-argument expression `pins=[]` of
`Component.__init__` (`core.py` line 168) once, when the `def` line executes at
module import; this is the store holding that single shared empty-list object.
(The `epins=[]`/`nets=[]` defaults are the same mechanism, but `__init__` never
stores them, so only the `pins` default is modelled.) -/
def importHeap : Heap := [[]]

/-- The reference to the one default `pins` list object. -/
def pinsDefaultRef : Nat := 0

/-- The pins-related attribute state of a constructed component at the reference
level: which list object `self.pins` points to, plus the derived count. -/
structure ComponentRef where
  idx : Option Int
  pinsRef : Nat
  npins : Nat
deriving DecidableEq, Repr

/-- Reference-level `Component.__init__` restricted to the `pins` handling
(`core.py` lines 168, 178-179): a call without the `pins` argument binds
`self.pins` to the module-level default list object; `npins = len(pins)`. -/
def Component.initRef (h : Heap) (idx : Option Int) (pinsArg : Option Nat) :
    Heap × ComponentRef :=
  let r := pinsArg.getD pinsDefaultRef
  (h, { idx := idx, pinsRef := r, npins := (h.read r).length })

/-- `c.pins.append(p)` at the reference level: mutates the list object `self.pins`
points to. -/
def appendPin (h : Heap) (c : ComponentRef) (p : Pin) : Heap :=
  h.write c.pinsRef (h.read c.pinsRef ++ [p])

/-! Concrete sample data used to instantiate the theorems below. -/

/-- A square DevRec outline with bounding-box center `(2, 2)`. -/
def polySample : Polygon := ⟨⟨0, 0⟩, [⟨4, 0⟩, ⟨4, 4⟩, ⟨0, 4⟩]⟩

/-- A second outline, with bounding-box center `(102, 102)`. -/
def polyB : Polygon := ⟨⟨100, 100⟩, [⟨104, 104⟩]⟩

/-- An electrical-pin box with center `(5, 10)`. -/
def boxSample : Box := ⟨0, 0, 10, 20⟩

/-- A box-based ELECTRICAL pin, as `Pin.__init__` constructs it. -/
noncomputable def pinSample : Pin :=
  Pin.init none (some PinType.ELECTRICAL) (some boxSample) none none none none

/-- A path-based OPTICAL pin on the two-point path `[(0,0), (2,0)]`. -/
noncomputable def p7 : Pin :=
  Pin.init (some [⟨0, 0⟩, ⟨2, 0⟩]) (some PinType.OPTICAL) none none none none none

/-- A one-point (invalid) pin path. -/
def invalidPath : Path := [⟨0, 0⟩]

/-- Translation by `(100, 0)`. -/
def tShift : Trans := ⟨1, 0, 0, 1, 100, 0⟩

/-- Translation by `(5, 7)`. -/
def t1w : Trans := ⟨1, 0, 0, 1, 5, 7⟩

/-- Rotation by 90 degrees about the origin. -/
def t2w : Trans := ⟨0, -1, 1, 0, 0, 0⟩

/-- A component as `Component.__init__` builds it from `polySample` with
`dbu = 1` and everything else defaulted. -/
def baseComponent : Component :=
  { idx := some 0, component := some "ebeam_y_1550", inst := none, trans := none,
    library := none, pins := [], npins := 0, params := none, polygon := polySample,
    DevRec_polygon := none, center := ⟨2, 2⟩, cell := none, basic_name := none,
    cellName := none, Dcenter := ⟨2, 2⟩ }

/-- The construction call that `c3val` is the result of. -/
def c3init : Except String Component :=
  Component.init (some 0) none none none none none [] [] [] (some polySample)
    none none none none 1

/-- The component constructed by `c3init`. -/
def c3val : Component :=
  { idx := some 0, component := none, inst := none, trans := none, library := none,
    pins := [], npins := 0, params := none, polygon := polySample, DevRec_polygon := none,
    center := ⟨2, 2⟩, cell := none, basic_name := none, cellName := none, Dcenter := ⟨2, 2⟩ }

/-- A component whose `library` is set but whose `component` name is the empty
string. -/
def c6cex : Component := { baseComponent with library := some "LIB", component := some "" }

/-- A component with both `library` and `component` non-empty; the library name
contains a `/`. -/
def c6wit : Component := { baseComponent with library := some "Lib/one", component := some "Y" }

/-- A component whose `pins` list was mutated after construction (one pin was
appended), leaving the stale `npins = 0`. -/
noncomputable def c9cex : Component := { baseComponent with pins := [pinSample], npins := 0 }

/-- First default-argument construction (`Component(idx=0)`): no `pins` passed. -/
def demoHeap1 : Heap := (Component.initRef importHeap (some 0) none).1

def demoC1 : ComponentRef := (Component.initRef importHeap (some 0) none).2

/-- Second default-argument construction (`Component(idx=1)`). -/
def demoHeap2 : Heap := (Component.initRef demoHeap1 (some 1) none).1

def demoC2 : ComponentRef := (Component.initRef demoHeap1 (some 1) none).2

/-- The store after `demoC1.pins.append(pinSample)`. -/
noncomputable def demoHeap3 : Heap := appendPin demoHeap2 demoC1 pinSample

/-! Theorems. -/

/-- Transform composition acts pointwise: applying the composed transform to a
point is applying the two transforms in sequence. -/
theorem Trans.apply_comp (t2 t1 : Trans) (p : Point) :
    (Trans.comp t2 t1).apply p = t2.apply (t1.apply p) := by
  simp only [Trans.comp, Trans.apply, Point.mk.injEq]
  constructor <;> ring

/-- Claim C1: for every Pin constructed with a path of exactly 2 points and type
OPTICAL, the center equals the arithmetic midpoint of the two path points, and
the rotation equals the atan2-style vector angle, in degrees, of the vector from
point0 to point1. -/
theorem pin_optical_center_rotation (p0 p1 : Point) :
    (Pin.init (some [p0, p1]) (some PinType.OPTICAL) none none none none none).center
        = some ⟨(p0.x + p1.x) / 2, (p0.y + p1.y) / 2⟩
    ∧ (Pin.init (some [p0, p1]) (some PinType.OPTICAL) none none none none none).rotation
        = angle_vector (p1 - p0) := by
  refine ⟨?_, rfl⟩
  show some (⟨(p0.x + p1.x) * (1 / 2), (p0.y + p1.y) * (1 / 2)⟩ : Point) = _
  have hx : (p0.x + p1.x) * (1 / 2) = (p0.x + p1.x) / 2 := by ring
  have hy : (p0.y + p1.y) * (1 / 2) = (p0.y + p1.y) / 2 := by ring
  rw [hx, hy]

/-- Claim C5: constructing a Pin from a path with other than exactly 2 points is
NOT signalled as an error: `Pin.__init__` prints a console message and silently
produces a Pin whose rotation is defaulted to 0 and whose center (and box)
attributes are never set.  This evaluates the constructor at the failing input
(a one-point path). -/
theorem pin_invalid_path_silent_default :
    (Pin.init (some invalidPath) (some PinType.OPTICAL) none none none none none).rotation = 0
    ∧ (Pin.init (some invalidPath) (some PinType.OPTICAL) none none none none none).center = none
    ∧ (Pin.init (some invalidPath) (some PinType.OPTICAL) none none none none none).path
        = some invalidPath := ⟨rfl, rfl, rfl⟩

/-- Claim C4 (counterexample): `Pin.transform` does NOT apply the transform to a
box-based ELECTRICAL pin: the translation `tShift` moves the box center from
`(5, 10)` to `(105, 10)`, yet the transformed pin is returned entirely
unchanged, its center still `(5, 10)` and its box untouched. -/
theorem pin_transform_box_untouched :
    Pin.transform pinSample tShift = Except.ok pinSample
    ∧ pinSample.center = some ⟨5, 10⟩
    ∧ pinSample.box = some boxSample
    ∧ Trans.apply tShift ⟨5, 10⟩ ≠ (⟨5, 10⟩ : Point) := by
  refine ⟨rfl, by with_unfolding_all rfl, rfl, ?_⟩
  have h1 : Trans.apply tShift ⟨5, 10⟩ = ⟨105, 10⟩ := by with_unfolding_all rfl
  rw [h1]
  simp only [ne_eq, Point.mk.injEq, not_and]
  intro hx
  norm_num at hx

/-- Claim C4 (amended): `Pin.transform` applies the transform and recomputes
center and rotation per the derivation rules for path-based pins (transformed
midpoint, transformed vector angle) and for polygon-based pins (transformed
bounding-box center, rotation 0), returning the updated pin; a pin with neither
path nor polygon — a box-based ELECTRICAL pin — is returned unchanged, its box
and center untransformed. -/
theorem pin_transform_cases (p : Pin) (t : Trans) :
    (∀ a b : Point, p.path = some [a, b] → p.polygon = none →
        Pin.transform p t = Except.ok { p with
          path := some [t.apply a, t.apply b],
          center := some ((t.apply a + t.apply b).scale (1 / 2)),
          rotation := angle_vector (t.apply b - t.apply a) })
    ∧ (∀ pg : Polygon, p.path = none → p.polygon = some pg →
        Pin.transform p t = Except.ok { p with
          polygon := some (pg.transformed t),
          center := some ((pg.transformed t).bbox.center),
          rotation := 0 })
    ∧ (p.path = none → p.polygon = none → Pin.transform p t = Except.ok p) := by
  obtain ⟨ty, nt, nm, cp, pa, pg0, bx, ce, ro⟩ := p
  refine ⟨?_, ?_, ?_⟩
  · intro a b h1 h2
    obtain rfl : pa = some [a, b] := h1
    obtain rfl : pg0 = none := h2
    rfl
  · intro pg h1 h2
    obtain rfl : pa = none := h1
    obtain rfl : pg0 = some pg := h2
    rfl
  · intro h1 h2
    obtain rfl : pa = none := h1
    obtain rfl : pg0 = none := h2
    rfl

/-- Witness for C4's amended theorem: the path case evaluated on the concrete
two-point pin `p7` and the translation `tShift`. -/
theorem pin_transform_cases_witness :
    Pin.transform p7 tShift = Except.ok { p7 with
      path := some [Trans.apply tShift ⟨0, 0⟩, Trans.apply tShift ⟨2, 0⟩],
      center := some ((Trans.apply tShift ⟨0, 0⟩ + Trans.apply tShift ⟨2, 0⟩).scale (1 / 2)),
      rotation := angle_vector (Trans.apply tShift ⟨2, 0⟩ - Trans.apply tShift ⟨0, 0⟩) } :=
  (pin_transform_cases p7 tShift).1 ⟨0, 0⟩ ⟨2, 0⟩ rfl rfl

/-- Claim C7: on a path-based pin, transforming by `t1` and then by `t2` yields
the same center and rotation as one transform by the composition `t2` after
`t1`. -/
theorem pin_transform_composition (p : Pin) (t1 t2 : Trans) (a b : Point) (rest : Path)
    (hp : p.path = some (a :: b :: rest)) (hpoly : p.polygon = none) :
    ((Pin.transform p t1).bind (fun q => Pin.transform q t2)).map
        (fun q => (q.center, q.rotation))
      = (Pin.transform p (Trans.comp t2 t1)).map (fun q => (q.center, q.rotation)) := by
  obtain ⟨ty, nt, nm, cp, pa, pg0, bx, ce, ro⟩ := p
  obtain rfl : pa = some (a :: b :: rest) := hp
  obtain rfl : pg0 = none := hpoly
  show Except.ok
      ((some ((t2.apply (t1.apply a) + t2.apply (t1.apply b)).scale (1 / 2)) : Option Point),
        angle_vector (t2.apply (t1.apply b) - t2.apply (t1.apply a)))
    = Except.ok
      ((some (((Trans.comp t2 t1).apply a + (Trans.comp t2 t1).apply b).scale (1 / 2)) :
          Option Point),
        angle_vector ((Trans.comp t2 t1).apply b - (Trans.comp t2 t1).apply a))
  rw [Trans.apply_comp, Trans.apply_comp]

/-- Witness for C7: the composition law evaluated on the concrete pin `p7`, a
translation and a 90-degree rotation. -/
theorem pin_transform_composition_witness :
    ((Pin.transform p7 t1w).bind (fun q => Pin.transform q t2w)).map
        (fun q => (q.center, q.rotation))
      = (Pin.transform p7 (Trans.comp t2w t1w)).map (fun q => (q.center, q.rotation)) :=
  pin_transform_composition p7 t1w t2w ⟨0, 0⟩ ⟨2, 0⟩ [] rfl rfl

/-- Claim C2 (counterexample): on `params = "a=5 b=1.5u c=[1,2,3]"` the method
raises instead of returning the claimed mapping: the value `[1,2,3]` contains
neither `.` nor `e`, so the integer branch applies first and `int("[1,2,3]")`
raises a `ValueError` — the bracket branch is never reached for it. -/
theorem params_dict_bracket_example_raises :
    Component.params_dict { baseComponent with params := some "a=5 b=1.5u c=[1,2,3]" }
      = Except.error "ValueError: invalid literal for int with base 10: [1,2,3]" := by
  with_unfolding_all rfl

/-- Claim C2 (amended): the token rules hold as stated, with the proviso that
the integer branch is tried first and fails loudly on non-numeric values — so a
bracketed value is kept as a literal substring only when it also contains a `.`
or an `e`/`E`.  Hence `"a=5 b=1.5u c=[1,2,3]"` raises a ValueError, while
`"a=5 b=1.5u c=[1.0,2,3]"` returns the mapping the claim describes:
`a` parsed as the integer 5, `b` as the float 1.5 (micrometres), and `c` kept
as the literal substring. -/
theorem params_dict_amended_rules :
    Component.params_dict { baseComponent with params := some "a=5 b=1.5u c=[1,2,3]" }
      = Except.error "ValueError: invalid literal for int with base 10: [1,2,3]"
    ∧ Component.params_dict { baseComponent with params := some "a=5 b=1.5u c=[1.0,2,3]" }
      = Except.ok [("a", PValue.intV 5), ("b", PValue.floatV (3 / 2)),
                   ("c", PValue.strV "[1.0,2,3]")] := by
  constructor
  · with_unfolding_all rfl
  · with_unfolding_all rfl

/-- Claim C3 (counterexample): `c3init` constructs a component whose center is
its polygon's bounding-box center, but the center is computed once, at
construction: after replacing the `polygon` field the center field is stale and
no longer equals `polygon.bbox().center()` (nothing in the module recomputes
it). -/
theorem component_center_stale_after_polygon_replacement :
    c3init = Except.ok c3val
    ∧ ({ c3val with polygon := polyB }).center
        ≠ ({ c3val with polygon := polyB }).polygon.bbox.center := by
  constructor
  · with_unfolding_all rfl
  · have h1 : ({ c3val with polygon := polyB }).center = (⟨2, 2⟩ : Point) := rfl
    have h2 : ({ c3val with polygon := polyB }).polygon.bbox.center = (⟨102, 102⟩ : Point) := by
      with_unfolding_all rfl
    rw [h1, h2]
    simp only [ne_eq, Point.mk.injEq, not_and]
    intro hx
    norm_num at hx

/-- Claim C3 (amended): for every successfully constructed Component the center
field equals `polygon.bbox().center()` at construction time; the module offers
no recomputation on mutation, so replacing the `polygon` field leaves `center`
at its construction-time value (and hence stale). -/
theorem component_center_construction_only (idx : Option Int) (component : Option String)
    (inst : Option String) (trans : Option Trans) (library : Option String)
    (params : Option String) (pins : List Pin) (epins : List Pin) (nets : List Net)
    (polygonArg : Option Polygon) (DevRec_polygon : Option Polygon) (cell : Option String)
    (basic_name : Option String) (cellName : Option String) (dbu : ℚ) (c : Component)
    (pg2 : Polygon)
    (h : Component.init idx component inst trans library params pins epins nets polygonArg
          DevRec_polygon cell basic_name cellName dbu = Except.ok c) :
    c.center = c.polygon.bbox.center ∧ ({ c with polygon := pg2 }).center = c.center := by
  cases polygonArg with
  | none => exact absurd h (by simp [Component.init])
  | some pg =>
      simp only [Component.init, Except.ok.injEq] at h
      subst h
      exact ⟨rfl, rfl⟩

/-- Witness for C3's amended theorem, on the concrete construction `c3init`. -/
theorem component_center_construction_only_witness :
    c3val.center = c3val.polygon.bbox.center
    ∧ ({ c3val with polygon := polyB }).center = c3val.center :=
  component_center_construction_only (some 0) none none none none none [] [] []
    (some polySample) none none none none 1 c3val polyB (by with_unfolding_all rfl)

/-- Claim C6 (counterexample): the branch on the library is taken only when BOTH
`library` and `component` are truthy (`if self.library and self.component:`).
For a component with `library = "LIB"` and an empty component name, the claim's
composed key is `"lib::"`, which is in the registry, yet `has_model` takes the
design-kits branch and returns false. -/
theorem has_model_ignores_set_library_with_empty_component :
    Component.has_model c6cex ["lib::"] "EBeam" = Except.ok false
    ∧ (pyReplaceChar (pyToLower "LIB") '/' "::") ++ "::" ++ pyToLower "" = "lib::"
    ∧ (["lib::"] : List String).contains "lib::" = true := by
  refine ⟨by with_unfolding_all rfl, by with_unfolding_all rfl, by with_unfolding_all rfl⟩

/-- Claim C6 (amended): for every Component whose component name is a non-empty
string, `has_model` returns exactly the membership in the registry of the
composed lookup key — the library-based key (library lower-cased, `/` replaced
by `::`, then `::` and the lower-cased component name) when `library` is set and
non-empty, and the design-kits key (`"design kits::"` + lower-cased technology
name + `::` + lower-cased component name) otherwise — without raising and
without side effects. -/
theorem has_model_key_membership (c : Component) (intc : List String) (tech : String)
    (comp : String) (hc : c.component = some comp) (hne : comp ≠ "") :
    Component.has_model c intc tech = Except.ok (intc.contains
      (match c.library with
       | some lib =>
           if lib = "" then "design kits::" ++ pyToLower tech ++ "::" ++ pyToLower comp
           else (pyReplaceChar (pyToLower lib) '/' "::") ++ "::" ++ pyToLower comp
       | none => "design kits::" ++ pyToLower tech ++ "::" ++ pyToLower comp)) := by
  cases hl : c.library with
  | none => simp [Component.has_model, hc, hl]
  | some lib =>
      by_cases he : lib = ""
      · subst he
        simp [Component.has_model, hc, hl]
      · simp [Component.has_model, hc, hl, hne, he]

/-- Witness for C6's amended theorem: a set library containing a `/`. -/
theorem has_model_key_membership_witness :
    Component.has_model c6wit ["lib::one::y"] "EBeam"
      = Except.ok ((["lib::one::y"] : List String).contains
          ((pyReplaceChar (pyToLower "Lib/one") '/' "::") ++ "::" ++ pyToLower "Y")) :=
  has_model_key_membership c6wit ["lib::one::y"] "EBeam" "Y" rfl (by decide)

/-- Claim C8: `params_dict` is deterministic — its result depends only on the
`params` string, so equal params give equal mappings — and an unset (`None`) or
empty params string yields the empty mapping without error. -/
theorem params_dict_deterministic_and_empty :
    (∀ c1 c2 : Component, c1.params = c2.params →
        Component.params_dict c1 = Component.params_dict c2)
    ∧ (∀ c : Component, c.params = none ∨ c.params = some "" →
        Component.params_dict c = Except.ok []) := by
  constructor
  · intro c1 c2 h
    simp only [Component.params_dict, h]
  · rintro c (h | h) <;> simp [Component.params_dict, h]

/-- Witness for C8: two components sharing an unset params string. -/
theorem params_dict_deterministic_and_empty_witness :
    Component.params_dict baseComponent = Component.params_dict c3val
    ∧ Component.params_dict baseComponent = Except.ok [] :=
  ⟨params_dict_deterministic_and_empty.1 baseComponent c3val rfl,
   params_dict_deterministic_and_empty.2 baseComponent (Or.inl rfl)⟩

/-- Claim C9 (counterexample): `display` is not read-only on the Component: it
reassigns `npins` to `len(pins)`.  On a component whose pins list was mutated
after construction (`npins = 0` but one pin present), `display` changes `npins`
from 0 to 1. -/
theorem display_mutates_npins :
    (Component.display c9cex [] "EBeam").1.npins = 1 ∧ c9cex.npins = 0 := ⟨rfl, rfl⟩

/-- Claim C9 (amended): for every Component, `display` reassigns `npins` to
`len(pins)` and otherwise leaves every field of the Component (and of its Pins
and Nets) unchanged; its result is the formatted report text of the updated
component — or the propagated exception when the text construction raises (a
pin with no `center` attribute, or `has_model` on a `None` component name) — so
it is read-only exactly when `npins` already equals the pin-list length.  (The
report is also printed to the console, a host I/O effect outside the data
model.) -/
theorem display_returns_text_and_resets_npins (c : Component) (intc : List String)
    (tech : String) :
    (Component.display c intc tech).1 = { c with npins := c.pins.length }
    ∧ (Component.display c intc tech).2
        = Component.displayText { c with npins := c.pins.length } intc tech
    ∧ (c.npins = c.pins.length →
        Component.display c intc tech = (c, Component.displayText c intc tech)) := by
  obtain ⟨idx, comp, inst, trans, lib, pins, npins, params, pg, dev, ctr, cell, bn, cn, dc⟩ := c
  refine ⟨rfl, rfl, fun hnp => ?_⟩
  simp only at hnp
  subst hnp
  rfl

/-- Witness for C9's amended theorem: on `baseComponent` (whose `npins` is
consistent) `display` is read-only and yields the report text of the component
itself. -/
theorem display_returns_text_and_resets_npins_witness :
    Component.display baseComponent [] "EBeam"
      = (baseComponent, Component.displayText baseComponent [] "EBeam") :=
  (display_returns_text_and_resets_npins baseComponent [] "EBeam").2.2 rfl

/-- Claim C10: the `pins=[]` default of `Component.__init__` is a single list
object created when the `def` line executes, shared by every construction that
omits the argument: after appending one pin to the first default-constructed
component's pins, the second default-constructed component's pins list — the
very same object — has length 1 instead of staying empty. -/
theorem component_default_pins_shared :
    demoC1.pinsRef = demoC2.pinsRef
    ∧ (Heap.read demoHeap3 demoC2.pinsRef).length = 1 := ⟨rfl, rfl⟩

end SiEPIC
